import Mathlib

/-!
Verification development for a thin SSH/SFTP convenience layer (package
`goph`, file `client.go`).  The SSH transport, sessions and the SFTP
file-subsystem are external collaborators; their outcomes are supplied as
explicit parameters (oracles), while the control flow of the wrapper
functions `NewConfig`, `NewClient`, `Run`, `Upload` and `Download` is
embedded faithfully from the source.  Go's `defer` statements are modelled
by emitting release events on every exit path, in the same LIFO order the
deferred calls run in.
-/

namespace Goph

/-- Bytes of a file, one `Nat` per byte. -/
abbrev Bytes := List Nat

/-- An authentication method, abstract (external collaborator). -/
abbrev AuthMethod := Nat

/-- `type Auth []ssh.AuthMethod`: an ordered list of authentication methods. -/
abbrev Auth := List AuthMethod

/-- A host-key (trust-verification) callback, abstract.  A value of this
type is always an actual callback: absence is represented by the `error`
branch of `Except` in `DefaultKnownHosts`, never by a value here. -/
abbrev HostKeyCallback := Nat

/-- Errors surfaced by the layer.  Distinct constructors keep the failing
step distinguishable, as the source does by returning the collaborator's
error verbatim. -/
inductive GoErr where
  /-- `os.Open` failed (file absent or unreadable). -/
  | localOpen
  /-- `os.Create` failed. -/
  | localCreate
  /-- `sftp.NewClient` failed. -/
  | sftpNew
  /-- `ftp.Create` failed (missing parent directory, permissions, ...). -/
  | remoteCreate
  /-- `ftp.Open` failed (file absent or unreadable). -/
  | remoteOpen
  /-- `io.Copy` failed mid-stream. -/
  | copyErr
  /-- `local.Sync` (durability flush) failed. -/
  | syncErr
  /-- The remote process exited with the given non-zero status. -/
  | exitError (code : Nat)
  /-- `DefaultKnownHosts` failed, with an abstract cause. -/
  | khError (cause : Nat)
  /-- `ssh.Dial` failed. -/
  | dialErr
  /-- `c.NewSession` failed. -/
  | sessionErr
deriving DecidableEq, Repr

/-- `ssh.ClientConfig`: the fields `NewConfig` populates. -/
structure ClientConfig where
  user : String
  auth : Auth
  timeout : Nat
  hostKeyCallback : HostKeyCallback
deriving DecidableEq, Repr

/-- `type Config struct` from `client.go`. -/
structure Config where
  auth : Auth
  protocol : String
  addr : String
  port : Nat
  clientConfig : ClientConfig
deriving DecidableEq, Repr

/-- `var DefaultTimeout = 20 * time.Second`, in nanoseconds (Go's
`time.Duration` unit); its initial value, the one `NewConfig` reads. -/
def DefaultTimeout : Nat := 20 * 1000000000

/-- Modelled from the spec: `DefaultKnownHosts` (file `known_hosts.go`,
not part of the sources at hand) obtains the trust-verification callback
from the user's known-hosts store.  Per the spec invariant, it either
fails or yields an actual callback; its outcome is supplied by the
environment parameter. -/
def DefaultKnownHosts (envResult : Except GoErr HostKeyCallback) :
    Except GoErr HostKeyCallback :=
  envResult

set_option linter.unusedVariables false in
/-- `func NewConfig(user string, addr string, port uint, auth Auth)
(*Config, error)`.  Mirrors the source literally: on known-hosts failure
the error is returned with no config; otherwise the struct literal of
lines 40-51 is built.  Note the source writes `Port: 22`, not
`Port: port`: the `port` parameter is unused there. -/
def NewConfig (kh : Except GoErr HostKeyCallback)
    (user : String) (addr : String) (port : Nat) (auth : Auth) :
    Except GoErr Config :=
  match DefaultKnownHosts kh with
  | .error e => .error e
  | .ok callback =>
      .ok { auth := auth
            addr := addr
            port := 22
            protocol := "tcp"
            clientConfig :=
              { user := user
                auth := auth
                timeout := DefaultTimeout
                hostKeyCallback := callback } }

/-- `net.JoinHostPort`: brackets the host when it holds a colon (IPv6
literal), else plain `host:port`. -/
def joinHostPort (host : String) (port : String) : String :=
  if host.data.contains ':' then "[" ++ host ++ "]:" ++ port
  else host ++ ":" ++ port

/-- The endpoint string `NewClient` hands to `ssh.Dial`:
`net.JoinHostPort(c.Addr, fmt.Sprint(c.Port))`. -/
def clientDialAddr (c : Config) : String :=
  joinHostPort c.addr (toString c.port)

/-- Record of a successful dial: which protocol and endpoint were used. -/
structure DialRecord where
  protocol : String
  endpoint : String
deriving DecidableEq, Repr

/-- `func NewClient(c *Config) (*Client, error)`: dials
`c.Protocol` / `net.JoinHostPort(c.Addr, fmt.Sprint(c.Port))`; the dial
outcome comes from the transport collaborator. -/
def NewClient (dialOk : Bool) (c : Config) : Except GoErr DialRecord :=
  if dialOk then .ok { protocol := c.protocol, endpoint := clientDialAddr c }
  else .error .dialErr

/-! ## Command executor -/

/-- Acquisition/release events, emitted in the order the source performs
them; deferred releases appear in LIFO order, as Go runs them. -/
inductive Event where
  | sessOpened
  | sessClosed
  | localOpened
  | localClosed
  | sftpOpened
  | sftpClosed
  | remoteOpened
  | remoteClosed
  /-- the durability flush `local.Sync()` was invoked -/
  | synced
deriving DecidableEq, Repr

/-- The remote process a session executes: the bytes it writes to its
combined output streams, and its exit status. -/
structure RemoteProc where
  out : Bytes
  exit : Nat
deriving DecidableEq, Repr

/-- `ssh.Session.CombinedOutput` contract (external collaborator): the
collected combined-output bytes are returned in every case, paired with
`nil` on exit status 0 and an exit error otherwise. -/
def combinedOutput (p : RemoteProc) : Bytes × Option GoErr :=
  (p.out, if p.exit = 0 then none else some (.exitError p.exit))

/-- How an opened session behaves on `CombinedOutput`: either it runs the
remote process to completion (possibly with a non-zero exit), or output
collection panics with the given payload. -/
inductive SessBehavior where
  | runs (proc : RemoteProc)
  | panics (payload : Nat)
deriving DecidableEq, Repr

/-- Outcome of `Run`: a normal return of `([]byte, error)`, or a panic
propagated to the caller. -/
inductive RunOutcome where
  | returns (out : Option Bytes) (err : Option GoErr)
  | panicked (payload : Nat)
deriving DecidableEq, Repr

/-- The parts of the SSH client `Run` interacts with: whether
`c.NewSession()` succeeds, and how the fresh session responds to the
command line it is given. -/
structure SshClient where
  newSession : Except GoErr Unit
  exec : String → SessBehavior

/-- `func (c *Client) Run(cmd string) ([]byte, error)`: opens a session
(returning `nil, err` on failure), defers `sess.Close()`, and returns
`sess.CombinedOutput(cmd)`.  The deferred close runs on the normal return
and when output collection panics; the event list records it. -/
def Run (c : SshClient) (cmd : String) : RunOutcome × List Event :=
  match c.newSession with
  | .error e => (.returns none (some e), [])
  | .ok _ =>
      match c.exec cmd with
      | .runs proc =>
          (.returns (some (combinedOutput proc).1) (combinedOutput proc).2,
           [.sessOpened, .sessClosed])
      | .panics payload =>
          (.panicked payload, [.sessOpened, .sessClosed])

/-! ## File transfer -/

/-- A file system as an association list from paths to byte contents. -/
abbrev FileSys := List (String × Bytes)

/-- Contents at `p`, or `none` when no file exists there. -/
def lookupFile (fs : FileSys) (p : String) : Option Bytes :=
  match fs with
  | [] => none
  | (q, b) :: rest => if q = p then some b else lookupFile rest p

/-- Create or overwrite the file at `p` with contents `b`. -/
def setFile (fs : FileSys) (p : String) (b : Bytes) : FileSys :=
  match fs with
  | [] => [(p, b)]
  | (q, c) :: rest => if q = p then (p, b) :: rest else (q, c) :: setFile rest p b

/-- The two file systems a transfer touches. -/
structure World where
  localFS : FileSys
  remoteFS : FileSys
deriving DecidableEq, Repr

/-- Outcome of the `io.Copy` byte stream: complete, or failed after
transferring a prefix of `n` bytes. -/
inductive CopyOutcome where
  | ok
  | failAfter (n : Nat)
deriving DecidableEq, Repr

/-- Environment outcomes for the steps of a transfer that depend on the
collaborators or the OS beyond file existence: permissions, channel
availability, stream health, flush success. -/
structure SftpEnv where
  /-- `os.Open` succeeds when the file exists (readable). -/
  localOpenOk : Bool
  /-- `os.Create` succeeds (writable path). -/
  localCreateOk : Bool
  /-- `c.NewSftp()`, i.e. `sftp.NewClient`, succeeds. -/
  sftpOk : Bool
  /-- `ftp.Create` succeeds (parent exists, writable). -/
  remoteCreateOk : Bool
  /-- `ftp.Open` succeeds when the file exists (readable). -/
  remoteOpenOk : Bool
  /-- outcome of the `io.Copy` stream. -/
  copy : CopyOutcome
  /-- `local.Sync()` succeeds. -/
  syncOk : Bool
deriving DecidableEq, Repr

/-- `func (c Client) Upload(localPath string, remotePath string) (err
error)`: `os.Open(localPath)` (deferred close), `c.NewSftp()` (deferred
close), `ftp.Create(remotePath)` — which creates or truncates the remote
file — (deferred close), then `io.Copy(remote, local)`, returning the copy
error.  Each branch returns the error of the failing step together with
the world as the source leaves it and the events of the path taken. -/
def Upload (env : SftpEnv) (w : World) (localPath remotePath : String) :
    Option GoErr × World × List Event :=
  match lookupFile w.localFS localPath with
  | none => (some .localOpen, w, [])
  | some content =>
      if !env.localOpenOk then (some .localOpen, w, [])
      else if !env.sftpOk then
        (some .sftpNew, w, [.localOpened, .localClosed])
      else if !env.remoteCreateOk then
        (some .remoteCreate, w,
         [.localOpened, .sftpOpened, .sftpClosed, .localClosed])
      else
        match env.copy with
        | .failAfter n =>
            (some .copyErr,
             { w with remoteFS := setFile w.remoteFS remotePath (content.take n) },
             [.localOpened, .sftpOpened, .remoteOpened,
              .remoteClosed, .sftpClosed, .localClosed])
        | .ok =>
            (none,
             { w with remoteFS := setFile w.remoteFS remotePath content },
             [.localOpened, .sftpOpened, .remoteOpened,
              .remoteClosed, .sftpClosed, .localClosed])

/-- `func (c Client) Download(remotePath string, localPath string) (err
error)`: `os.Create(localPath)` — which creates or truncates the local
file — (deferred close), `c.NewSftp()` (deferred close),
`ftp.Open(remotePath)` (deferred close), `io.Copy(local, remote)` with an
early return on copy error, and finally `return local.Sync()`. -/
def Download (env : SftpEnv) (w : World) (remotePath localPath : String) :
    Option GoErr × World × List Event :=
  if !env.localCreateOk then (some .localCreate, w, [])
  else
    let w1 : World := { w with localFS := setFile w.localFS localPath [] }
    if !env.sftpOk then
      (some .sftpNew, w1, [.localOpened, .localClosed])
    else
      match lookupFile w.remoteFS remotePath with
      | none =>
          (some .remoteOpen, w1,
           [.localOpened, .sftpOpened, .sftpClosed, .localClosed])
      | some content =>
          if !env.remoteOpenOk then
            (some .remoteOpen, w1,
             [.localOpened, .sftpOpened, .sftpClosed, .localClosed])
          else
            match env.copy with
            | .failAfter n =>
                (some .copyErr,
                 { w1 with localFS := setFile w1.localFS localPath (content.take n) },
                 [.localOpened, .sftpOpened, .remoteOpened,
                  .remoteClosed, .sftpClosed, .localClosed])
            | .ok =>
                ((if env.syncOk then none else some .syncErr),
                 { w1 with localFS := setFile w1.localFS localPath content },
                 [.localOpened, .sftpOpened, .remoteOpened, .synced,
                  .remoteClosed, .sftpClosed, .localClosed])

/-- All acquisition steps of `Download` up to and including `ftp.Open`
succeeded, so the copy step is reached. -/
def downloadOpensOk (env : SftpEnv) (w : World) (remotePath : String) : Bool :=
  env.localCreateOk && env.sftpOk
    && (lookupFile w.remoteFS remotePath).isSome && env.remoteOpenOk

/-! ## Helper lemmas -/

/-- Writing a file and reading it back at the same path yields exactly the
written contents. -/
theorem lookupFile_setFile_self (fs : FileSys) (p : String) (b : Bytes) :
    lookupFile (setFile fs p b) p = some b := by
  induction fs with
  | nil => simp [setFile, lookupFile]
  | cons hd tl ih =>
      obtain ⟨q, c⟩ := hd
      by_cases hq : q = p <;> simp [setFile, lookupFile, hq, ih]

/-! ## Claims -/

/-- C1: claimed, a Config returned by `NewConfig(user, addr, p, auth)` has
`Port = p`, so a later connect dials `host:p`.  In the code the `port`
parameter is unused: the struct literal hardcodes `Port: 22`, so with
supplied port 2222 the returned config has port 22 and `NewClient` dials
`host:22`. -/
theorem C1_newConfig_ignores_supplied_port :
    NewConfig (.ok 0) "user" "host" 2222 [] =
      Except.ok ⟨[], "tcp", "host", 22, ⟨"user", [], DefaultTimeout, 0⟩⟩
    ∧ (⟨[], "tcp", "host", 22, ⟨"user", [], DefaultTimeout, 0⟩⟩ : Config).port = 22
    ∧ (⟨[], "tcp", "host", 22, ⟨"user", [], DefaultTimeout, 0⟩⟩ : Config).port ≠ 2222
    ∧ clientDialAddr ⟨[], "tcp", "host", 22, ⟨"user", [], DefaultTimeout, 0⟩⟩
        = "host:22" :=
  ⟨rfl, rfl, by decide, by decide⟩

/-- C2: `Download` performs the durability flush (`local.Sync`) iff all
acquisitions succeeded and the byte-stream copy completed without error;
when the copy fails mid-stream, the streaming error is returned, the flush
is not attempted, and the returned error is the copy error, never a flush
error. -/
theorem C2_download_flush_iff_copy_completed (env : SftpEnv) (w : World)
    (rp lp : String) :
    (Event.synced ∈ (Download env w rp lp).2.2
      ↔ (downloadOpensOk env w rp = true ∧ env.copy = CopyOutcome.ok))
    ∧ (∀ n, downloadOpensOk env w rp = true → env.copy = CopyOutcome.failAfter n →
        (Download env w rp lp).1 = some GoErr.copyErr
        ∧ Event.synced ∉ (Download env w rp lp).2.2) := by
  obtain ⟨lo, lc, sf, rc, ro, cp, sy⟩ := env
  cases lc <;> cases sf <;> cases ro <;> cases hl : lookupFile w.remoteFS rp <;>
    cases cp <;> cases sy <;> simp_all [Download, downloadOpensOk]

/-- C2 witness: with a two-byte remote file and a stream failing after one
byte, `Download` returns the copy error and never syncs. -/
theorem C2_download_flush_witness :
    downloadOpensOk ⟨true, true, true, true, true, .failAfter 1, true⟩
        ⟨[], [("r", [7, 8])]⟩ "r" = true
    ∧ (Download ⟨true, true, true, true, true, .failAfter 1, true⟩
        ⟨[], [("r", [7, 8])]⟩ "r" "l").1 = some GoErr.copyErr
    ∧ Event.synced ∉ (Download ⟨true, true, true, true, true, .failAfter 1, true⟩
        ⟨[], [("r", [7, 8])]⟩ "r" "l").2.2 :=
  ⟨by decide,
   ((C2_download_flush_iff_copy_completed _ _ "r" "l").2 1 (by decide) rfl).1,
   ((C2_download_flush_iff_copy_completed _ _ "r" "l").2 1 (by decide) rfl).2⟩

/-- C3: whenever `Run` succeeds in opening a session, the session is
closed before `Run` returns on every exit path — normal return (with or
without an execution error) and a panic propagated from output
collection; when opening fails, `Run` returns nil output with the
session-open error, having acquired nothing. -/
theorem C3_run_always_closes_session (c : SshClient) (cmd : String) :
    (∀ e, c.newSession = .error e →
       (Run c cmd).1 = RunOutcome.returns none (some e) ∧ (Run c cmd).2 = [])
    ∧ (c.newSession = .ok () → Event.sessClosed ∈ (Run c cmd).2) := by
  constructor
  · intro e he
    simp [Run, he]
  · intro hok
    cases hexec : c.exec cmd <;> simp [Run, hok, hexec]

/-- C3 witness: a client whose session opens and runs normally has the
close event; one whose session open fails returns nil output and the
error. -/
theorem C3_run_closes_session_witness :
    Event.sessClosed ∈ (Run ⟨.ok (), fun _ => .runs ⟨[104, 105], 0⟩⟩ "echo hi").2
    ∧ (Run ⟨.error .sessionErr, fun _ => .runs ⟨[], 0⟩⟩ "echo hi").1
        = RunOutcome.returns none (some .sessionErr) :=
  ⟨(C3_run_always_closes_session _ "echo hi").2 rfl,
   ((C3_run_always_closes_session _ "echo hi").1 .sessionErr rfl).1⟩

/-- C4: `Upload` releases every resource it acquired on every exit path
(each opened event is matched by its close event); it never modifies the
local file system; and when creating the remote file fails, it returns
the remote I/O error with the local handle closed. -/
theorem C4_upload_releases_resources (env : SftpEnv) (w : World)
    (lp rp : String) :
    ((Event.localOpened ∈ (Upload env w lp rp).2.2 →
        Event.localClosed ∈ (Upload env w lp rp).2.2)
     ∧ (Event.sftpOpened ∈ (Upload env w lp rp).2.2 →
        Event.sftpClosed ∈ (Upload env w lp rp).2.2)
     ∧ (Event.remoteOpened ∈ (Upload env w lp rp).2.2 →
        Event.remoteClosed ∈ (Upload env w lp rp).2.2))
    ∧ (Upload env w lp rp).2.1.localFS = w.localFS
    ∧ ((lookupFile w.localFS lp).isSome = true → env.localOpenOk = true →
       env.sftpOk = true → env.remoteCreateOk = false →
       (Upload env w lp rp).1 = some GoErr.remoteCreate
       ∧ Event.localClosed ∈ (Upload env w lp rp).2.2) := by
  obtain ⟨lo, lc, sf, rc, ro, cp, sy⟩ := env
  cases lo <;> cases sf <;> cases rc <;> cases hl : lookupFile w.localFS lp <;>
    cases cp <;> simp_all [Upload]

/-- C4 witness: uploading an existing one-byte local file while remote
creation fails returns the remote-create error, closes the local handle
and leaves the local file system unchanged. -/
theorem C4_upload_releases_witness :
    (Upload ⟨true, true, true, false, true, .ok, true⟩ ⟨[("a", [1])], []⟩
        "a" "r").1 = some GoErr.remoteCreate
    ∧ Event.localClosed ∈ (Upload ⟨true, true, true, false, true, .ok, true⟩
        ⟨[("a", [1])], []⟩ "a" "r").2.2
    ∧ (Upload ⟨true, true, true, false, true, .ok, true⟩ ⟨[("a", [1])], []⟩
        "a" "r").2.1.localFS = [("a", [1])] :=
  ⟨((C4_upload_releases_resources _ _ "a" "r").2.2 (by decide) rfl rfl rfl).1,
   ((C4_upload_releases_resources _ _ "a" "r").2.2 (by decide) rfl rfl rfl).2,
   (C4_upload_releases_resources _ _ "a" "r").2.1⟩

/-- C5: when the remote process exits with a non-zero status, `Run`
returns the collected combined-output bytes together with a non-nil exit
error — the output is returned alongside the error, not discarded. -/
theorem C5_run_nonzero_exit_keeps_output (c : SshClient) (cmd : String)
    (proc : RemoteProc) (hopen : c.newSession = .ok ())
    (hexec : c.exec cmd = .runs proc) (hexit : proc.exit ≠ 0) :
    (Run c cmd).1
      = RunOutcome.returns (some proc.out) (some (GoErr.exitError proc.exit)) := by
  simp [Run, hopen, hexec, combinedOutput, hexit]

/-- C5 witness: a process writing one byte and exiting with status 3. -/
theorem C5_run_nonzero_exit_witness :
    (Run ⟨.ok (), fun _ => .runs ⟨[101], 3⟩⟩ "false").1
      = RunOutcome.returns (some [101]) (some (GoErr.exitError 3)) :=
  C5_run_nonzero_exit_keeps_output _ "false" ⟨[101], 3⟩ rfl rfl (by decide)

/-- C6: if `Upload` of a local file containing `b` succeeds and a
subsequent `Download` of the uploaded remote path succeeds, the resulting
local file contains exactly `b` — upload followed by download is the
identity on file contents, including the empty file. -/
theorem C6_upload_download_roundtrip (env1 env2 : SftpEnv) (w : World)
    (lp rp lp2 : String) (b : Bytes)
    (hb : lookupFile w.localFS lp = some b)
    (h1 : (Upload env1 w lp rp).1 = none)
    (h2 : (Download env2 (Upload env1 w lp rp).2.1 rp lp2).1 = none) :
    lookupFile (Download env2 (Upload env1 w lp rp).2.1 rp lp2).2.1.localFS lp2
      = some b := by
  obtain ⟨lo1, lc1, sf1, rc1, ro1, cp1, sy1⟩ := env1
  cases lo1 <;> cases sf1 <;> cases rc1 <;> cases cp1 <;> simp_all [Upload]
  obtain ⟨lo2, lc2, sf2, rc2, ro2, cp2, sy2⟩ := env2
  cases lc2 <;> cases sf2 <;> cases ro2 <;> cases cp2 <;> cases sy2 <;>
    simp_all [Download, lookupFile_setFile_self]

/-- C6 witness: a two-byte file round-trips through upload then download
in an all-success environment. -/
theorem C6_upload_download_roundtrip_witness :
    lookupFile
      (Download ⟨true, true, true, true, true, .ok, true⟩
        (Upload ⟨true, true, true, true, true, .ok, true⟩
          ⟨[("a", [9, 9])], []⟩ "a" "r").2.1 "r" "b").2.1.localFS "b"
      = some [9, 9] :=
  C6_upload_download_roundtrip _ _ ⟨[("a", [9, 9])], []⟩ "a" "r" "b" [9, 9]
    (by decide) (by decide) (by decide)

/-- C7: a Config returned successfully by `NewConfig` has transport
protocol `"tcp"`, a connect timeout equal to `DefaultTimeout` whose
initial value is 20 seconds (in nanoseconds), and a client configuration
carrying the supplied user and auth method. -/
theorem C7_newConfig_defaults (kh : Except GoErr HostKeyCallback)
    (u a : String) (p : Nat) (auth : Auth) (cfg : Config)
    (h : NewConfig kh u a p auth = .ok cfg) :
    cfg.protocol = "tcp"
    ∧ cfg.clientConfig.timeout = DefaultTimeout
    ∧ DefaultTimeout = 20 * 1000000000
    ∧ cfg.clientConfig.user = u
    ∧ cfg.clientConfig.auth = auth
    ∧ cfg.auth = auth := by
  cases kh with
  | error e => simp [NewConfig, DefaultKnownHosts] at h
  | ok cb =>
      simp only [NewConfig, DefaultKnownHosts, Except.ok.injEq] at h
      subst h
      exact ⟨rfl, rfl, rfl, rfl, rfl, rfl⟩

/-- C7 witness: concrete user, address, port and auth method. -/
theorem C7_newConfig_defaults_witness :
    NewConfig (.ok 5) "u" "h" 7 [1] =
      Except.ok ⟨[1], "tcp", "h", 22, ⟨"u", [1], DefaultTimeout, 5⟩⟩
    ∧ ((⟨[1], "tcp", "h", 22, ⟨"u", [1], DefaultTimeout, 5⟩⟩ : Config).protocol
          = "tcp"
       ∧ (⟨[1], "tcp", "h", 22, ⟨"u", [1], DefaultTimeout, 5⟩⟩ : Config).clientConfig.timeout
          = DefaultTimeout
       ∧ DefaultTimeout = 20 * 1000000000
       ∧ (⟨[1], "tcp", "h", 22, ⟨"u", [1], DefaultTimeout, 5⟩⟩ : Config).clientConfig.user
          = "u"
       ∧ (⟨[1], "tcp", "h", 22, ⟨"u", [1], DefaultTimeout, 5⟩⟩ : Config).clientConfig.auth
          = [1]
       ∧ (⟨[1], "tcp", "h", 22, ⟨"u", [1], DefaultTimeout, 5⟩⟩ : Config).auth = [1]) :=
  ⟨rfl, C7_newConfig_defaults (.ok 5) "u" "h" 7 [1] _ rfl⟩

/-- C8: `NewConfig` returns an error and no Config whenever the
known-hosts callback cannot be obtained, and every Config it returns
successfully carries exactly the callback the known-hosts lookup
produced — an absent callback is a configuration error, never a silent
bypass. -/
theorem C8_newConfig_trust_callback (kh : Except GoErr HostKeyCallback)
    (u a : String) (p : Nat) (auth : Auth) :
    (∀ e, kh = .error e → NewConfig kh u a p auth = .error e)
    ∧ (∀ cfg, NewConfig kh u a p auth = .ok cfg →
        kh = .ok cfg.clientConfig.hostKeyCallback) := by
  constructor
  · intro e he
    simp [NewConfig, DefaultKnownHosts, he]
  · intro cfg hcfg
    cases kh with
    | error e => simp [NewConfig, DefaultKnownHosts] at hcfg
    | ok cb =>
        simp only [NewConfig, DefaultKnownHosts, Except.ok.injEq] at hcfg
        subst hcfg
        rfl

/-- C8 witness: a failing known-hosts lookup propagates its error; a
successful one installs its callback in the returned config. -/
theorem C8_newConfig_trust_callback_witness :
    NewConfig (.error (GoErr.khError 3)) "u" "h" 7 [] =
      Except.error (GoErr.khError 3)
    ∧ (Except.ok 9 : Except GoErr HostKeyCallback) =
        .ok (⟨[], "tcp", "h", 22, ⟨"u", [], DefaultTimeout, 9⟩⟩ : Config).clientConfig.hostKeyCallback :=
  ⟨(C8_newConfig_trust_callback _ "u" "h" 7 []).1 (GoErr.khError 3) rfl,
   (C8_newConfig_trust_callback (.ok 9) "u" "h" 7 []).2
     ⟨[], "tcp", "h", 22, ⟨"u", [], DefaultTimeout, 9⟩⟩ rfl⟩

/-- C10: `Download` creates (or truncates to empty) the local file before
attempting to open the remote file, so when the remote path does not
exist or is unreadable, it returns the remote-open error while the local
file at `localPath` has already been created empty — the local side
effect persists even though the operation failed. -/
theorem C10_download_creates_local_before_remote_open (env : SftpEnv)
    (w : World) (rp lp : String)
    (hc : env.localCreateOk = true) (hs : env.sftpOk = true)
    (hr : lookupFile w.remoteFS rp = none ∨ env.remoteOpenOk = false) :
    (Download env w rp lp).1 = some GoErr.remoteOpen
    ∧ lookupFile (Download env w rp lp).2.1.localFS lp = some [] := by
  obtain ⟨lo, lc, sf, rc, ro, cp, sy⟩ := env
  cases hl : lookupFile w.remoteFS rp <;> cases ro <;>
    simp_all [Download, lookupFile_setFile_self]

/-- C10 witness: downloading a missing remote file leaves an empty local
file behind and reports the remote-open error. -/
theorem C10_download_creates_local_witness :
    (Download ⟨true, true, true, true, true, .ok, true⟩ ⟨[], []⟩
        "nope" "l").1 = some GoErr.remoteOpen
    ∧ lookupFile (Download ⟨true, true, true, true, true, .ok, true⟩ ⟨[], []⟩
        "nope" "l").2.1.localFS "l" = some [] :=
  C10_download_creates_local_before_remote_open _ _ "nope" "l" rfl rfl
    (Or.inl (by decide))

end Goph
